import Mathlib

/-!
Verification development for the browser-automation facade repository
(src/src/browser and src/src/utils).  Each Python operation relevant to the
claims is shallowly embedded as an executable Lean definition.  Backend
primitives (Selenium WebDriver commands, Playwright calls) are passed in as
oracles: an `Except PyError a` value models a Python call that either
returns a value or raises, and a `Nat -> Option a` probe models the state of
the remote document as a function of elapsed milliseconds since the call.
-/

/-- The Python exception classes raised or caught by the code under
verification, together with the abstract error kinds named by the design
document (NotFoundError, ElementNotFound) which have no corresponding
Python class anywhere in the repository.  Each constructor carries the
exception message. -/
inductive PyError where
  | exception : String → PyError
  | runtimeError : String → PyError
  | connectionError : String → PyError
  | notFoundError : String → PyError
  | elementNotFound : String → PyError
  | timeoutError : String → PyError
  deriving Repr, DecidableEq

/-- The message carried by an exception (`str(e)` in the Python logging). -/
def PyError.msg : PyError → String
  | .exception m => m
  | .runtimeError m => m
  | .connectionError m => m
  | .notFoundError m => m
  | .elementNotFound m => m
  | .timeoutError m => m

/-- `true` iff the error is the design document's NotFoundError kind. -/
def PyError.isNotFoundError : PyError → Bool
  | .notFoundError _ => true
  | _ => false

/-- `true` iff the error is the design document's ElementNotFound kind. -/
def PyError.isElementNotFound : PyError → Bool
  | .elementNotFound _ => true
  | _ => false

/-- A call result is a raised error of the ElementNotFound kind. -/
def raisedElementNotFound {α : Type} : Except PyError α → Bool
  | .error (.elementNotFound _) => true
  | _ => false

/-- A call result is a raised error of the NotFoundError kind. -/
def raisedNotFoundError {α : Type} : Except PyError α → Bool
  | .error (.notFoundError _) => true
  | _ => false

/-- A call completed without raising. -/
def exceptIsOk {α : Type} : Except PyError α → Bool
  | .ok _ => true
  | .error _ => false

/-- Python truthiness of an optional integer (`if timeout:`): `None` and `0`
are falsy. -/
def pyTruthyNat : Option Nat → Bool
  | none => false
  | some n => n != 0

/-- Python truthiness of an optional string (`if s:`): `None` and the empty
string are falsy. -/
def pyTruthyStr : Option String → Bool
  | none => false
  | some s => s != ""

/-- `x if x else None` applied to an optional string attribute value
(`elem_id if elem_id else None` in the source). -/
def strOrNoneOfTruthy : Option String → Option String
  | none => none
  | some s => if s = "" then none else some s

/-- The single-quote character, used inside exception messages built by the
source with f-strings. -/
def quoteChar : String := Char.toString (Char.ofNat 39)

/-! ## Executable Locator (src/src/utils/webdriver_utils.py) -/

/-- The environment snapshot consumed by `find_chromedriver_executable`:
the two environment variables it reads, the working directory and home
directory used to build candidate paths, and the result of
`shutil.which("chromedriver")` (a PATH lookup, part of the environment). -/
structure EnvState where
  chromedriver_path : Option String
  nix_profiles : Option String
  cwd : String
  home : String
  which_chromedriver : Option String

/-- The filesystem oracle: `os.path.isfile`, `os.access(-, os.X_OK)` and
`os.path.abspath` as pure functions of the path. -/
structure FSState where
  isfile : String → Bool
  access_x : String → Bool
  abspath : String → String

/-- `os.path.isfile(p) and os.access(p, os.X_OK)`. -/
def isExecFile (fs : FSState) (p : String) : Bool :=
  fs.isfile p && fs.access_x p

/-- `os.path.join(a, b)` for the shapes used by the locator. -/
def pyJoin (a b : String) : String :=
  if b.startsWith "/" then b
  else if a = "" then b
  else if a.endsWith "/" then a ++ b
  else a ++ "/" ++ b

/-- `os.path.expanduser` on a path beginning with a tilde. -/
def expanduser (home s : String) : String :=
  if s = "~" then home
  else if s.startsWith "~/" then home ++ s.drop 1
  else s

/-- The pattern `if p and os.path.isfile(p) and os.access(p, os.X_OK): return p`
applied to an optional path (used for the environment override and for the
`shutil.which` result). -/
def checkOpt (fs : FSState) (c : Option String) : Option String :=
  match c with
  | none => none
  | some p => if p = "" then none else if isExecFile fs p then some p else none

/-- The `common_paths` list built by `find_chromedriver_executable`,
including the NIX_PROFILES-derived candidates appended when that variable
is set and non-empty. -/
def commonPaths (env : EnvState) : List String :=
  [ pyJoin env.cwd "chromedriver",
    expanduser env.home "~/.local/bin/chromedriver",
    pyJoin (pyJoin (pyJoin env.cwd ".pythonlibs") "bin") "chromedriver",
    "/usr/local/bin/chromedriver",
    "/usr/bin/chromedriver" ] ++
  (match env.nix_profiles with
   | none => []
   | some s =>
     if s = "" then []
     else (s.splitOn " ").map (fun pr => pyJoin (pyJoin pr "bin") "chromedriver"))

/-- The final loop of `find_chromedriver_executable`: take the absolute path
of each candidate in order and return the first that is an executable file. -/
def firstCommonHit (fs : FSState) : List String → Option String
  | [] => none
  | p :: rest =>
    let a := fs.abspath p
    if isExecFile fs a then some a else firstCommonHit fs rest

/-- `find_chromedriver_executable()`: environment override first, then the
PATH lookup, then the conventional locations; `None` when nothing matches. -/
def find_chromedriver_executable (env : EnvState) (fs : FSState) : Option String :=
  match checkOpt fs env.chromedriver_path with
  | some p => some p
  | none =>
    match checkOpt fs env.which_chromedriver with
    | some p => some p
    | none => firstCommonHit fs (commonPaths env)

instance {ε α : Type} [DecidableEq ε] [DecidableEq α] : DecidableEq (Except ε α) :=
  fun a b =>
  match a, b with
  | .ok x, .ok y =>
    match decEq x y with
    | isTrue h => isTrue (by rw [h])
    | isFalse h => isFalse (by intro hc; injection hc; contradiction)
  | .error x, .error y =>
    match decEq x y with
    | isTrue h => isTrue (by rw [h])
    | isFalse h => isFalse (by intro hc; injection hc; contradiction)
  | .ok _, .error _ => isFalse (fun hc => Except.noConfusion hc)
  | .error _, .ok _ => isFalse (fun hc => Except.noConfusion hc)

/-! ## Selenium page operations (src/src/browser/selenium_context.py) -/

/-- Viewport / window dimensions (`{"width": ..., "height": ...}`). -/
structure ViewportSize where
  width : Nat
  height : Nat
  deriving Repr, DecidableEq

/-- A located WebElement, as the behaviour of the interactions the page
operations perform on it: the outcome of `element.click()` and of
`element.send_keys(text)` for the text of the current call. -/
structure SeleniumElement where
  click_result : Except PyError Unit
  send_keys_result : Except PyError Unit
  deriving Repr, DecidableEq

/-- First instant (in elapsed milliseconds, up to the deadline) at which the
document presence probe reports a CSS match, together with the element. -/
def firstPresent {E : Type} (probe : Nat → Option E) (deadlineMs : Nat) :
    Option (E × Nat) :=
  (List.range (deadlineMs + 1)).findSome?
    (fun k => match probe k with
              | some e => some (e, k)
              | none => none)

/-- `WebDriverWait(driver, t).until(EC.presence_of_element_located(...))`:
a bounded polling wait that yields the element (and the instant it was
found) or raises `TimeoutException` once the deadline passes.  The source
converts the millisecond timeout to seconds (`timeout / 1000`, exact float
division), so the deadline is kept in milliseconds here. -/
def webDriverWaitPresence {E : Type} (probe : Nat → Option E) (deadlineMs : Nat) :
    Except PyError (E × Nat) :=
  match firstPresent probe deadlineMs with
  | some ek => .ok ek
  | none => .error (.timeoutError "TimeoutException")

/-- `SeleniumPage.query_selector`: with a truthy timeout, a bounded polling
wait for presence; otherwise a single immediate `find_element`.  The bare
`except` converts both `TimeoutException` and `NoSuchElementException` into
`None`.  The result is returned together with the elapsed time in
milliseconds. -/
def SeleniumPage.query_selector {E : Type} (probe : Nat → Option E)
    (timeout : Option Nat) : Option E × Nat :=
  if pyTruthyNat timeout then
    match webDriverWaitPresence probe (timeout.getD 0) with
    | .ok (e, k) => (some e, k)
    | .error _ => (none, timeout.getD 0)
  else
    (probe 0, 0)

/-- `SeleniumPage.click`: resolve the element through `query_selector`; if
that yields `None`, raise a plain `Exception` whose message names the
selector. -/
def SeleniumPage.click (probe : Nat → Option SeleniumElement)
    (selector : String) (timeout : Option Nat) : Except PyError Unit :=
  match (SeleniumPage.query_selector probe timeout).1 with
  | some e => e.click_result
  | none => .error (.exception
      ("Element with selector " ++ quoteChar ++ selector ++ quoteChar ++
       " not found for click."))

/-- `SeleniumPage.type`: same resolution path as `click`, sending keys to
the element on success and raising a plain `Exception` otherwise. -/
def SeleniumPage.type (probe : Nat → Option SeleniumElement)
    (selector : String) (text : String) (timeout : Option Nat) :
    Except PyError Unit :=
  match (SeleniumPage.query_selector probe timeout).1 with
  | some e => e.send_keys_result
  | none => .error (.exception
      ("Element with selector " ++ quoteChar ++ selector ++ quoteChar ++
       " not found for type."))

/-- The readyState polling loop run by
`WebDriverWait(driver, t).until(lambda d: d.execute_script(...) == "complete")`:
at each elapsed millisecond the script either raises or yields the current
`document.readyState`; the wait stops at the first "complete", propagates a
script error, and raises `TimeoutException` when the fuel (deadline) runs
out. -/
def pollReadyState (probe : Nat → Except PyError String) (k : Nat) :
    Nat → Except PyError Unit
  | 0 => .error (.timeoutError "TimeoutException")
  | fuel + 1 =>
    match probe k with
    | .error e => .error e
    | .ok s => if s = "complete" then .ok () else pollReadyState probe (k + 1) fuel

/-- `SeleniumPage.wait_for_load_state`: with a truthy timeout it runs the
readyState wait inside `try: ... except: pass`, so every outcome —
including expiry of the caller-supplied timeout — is absorbed; with no
truthy timeout it does nothing.  The `state` argument is ignored by the
source. -/
def SeleniumPage.wait_for_load_state (probe : Nat → Except PyError String)
    (state : Option String) (timeout : Option Nat) : Except PyError Unit :=
  if pyTruthyNat timeout then
    match pollReadyState probe 0 (timeout.getD 0 + 1) with
    | .ok _ => .ok ()
    | .error _ => .ok ()
  else
    .ok ()

/-- `SeleniumPage.type_active`: the whole body is wrapped in
`try: ... except Exception as e: print(...)`, so a failure to locate the
active element or to send keys to it is only logged.  The oracle
`send_to_active` is the combined outcome of
`driver.switch_to.active_element` followed by `send_keys(text)`.  The
result pairs the call outcome with the line printed on failure; the
`timeout` parameter does not occur in the source body at all. -/
def SeleniumPage.type_active (send_to_active : Except PyError Unit)
    (text : String) (timeout : Option Nat) :
    Except PyError Unit × Option String :=
  match send_to_active with
  | .ok _ => (.ok (), none)
  | .error e => (.ok (), some ("Error typing into active element: " ++ e.msg))

/-! ## Selenium context and snapshot assembler
(src/src/browser/selenium_context.py, SeleniumBrowserContext) -/

/-- The identifying attributes read from `driver.switch_to.active_element`
before any truthiness filtering: `tag_name`, `get_attribute("id")` and
`get_attribute("name")` (the latter two may be `None`). -/
structure ActiveElementRaw where
  tag_name : String
  idAttr : Option String
  nameAttr : Option String
  deriving Repr, DecidableEq

/-- The `focused_element_info` dictionary assembled by the Selenium
snapshot. -/
structure FocusedElementInfo where
  tag_name : String
  id : Option String
  name : Option String
  deriving Repr, DecidableEq

/-- The behaviour of the WebDriver commands issued by
`SeleniumBrowserContext.get_state`, each a call that returns or raises:
`current_url`, `page_source`, the whole focused-element block
(`switch_to.active_element` plus the attribute reads, `Except.ok none`
when there is no active element), `get_window_size`, screenshot capture
(already base64-encoded, as `get_screenshot_as_base64` returns) and
`title`. -/
structure SeleniumDriverState where
  current_url : Except PyError String
  page_source : Except PyError String
  active_element : Except PyError (Option ActiveElementRaw)
  window_size : Except PyError ViewportSize
  screenshot_b64 : Except PyError String
  title : Except PyError String

/-- The state-snapshot record returned by the Selenium adapter. -/
structure SelStateSnapshot where
  url : String
  html_content : String
  accessibility_tree : Option String
  focused_element_info : Option FocusedElementInfo
  viewport_size : ViewportSize
  screenshot_base64 : Option String
  title : String
  deriving Repr, DecidableEq

/-- A `SeleniumBrowserContext`: its `_current_page` is constructed
unconditionally in `__init__` as a wrapper over the single driver, so the
context always holds exactly one page, represented by the driver behaviour
behind it. -/
structure SeleniumContextModel where
  driver : SeleniumDriverState

/-- `SeleniumBrowserContext.get_current_page`: returns `self._current_page`
unconditionally (a page always exists for this adapter). -/
def SeleniumBrowserContext.get_current_page (ctx : SeleniumContextModel) :
    Except PyError SeleniumDriverState :=
  .ok ctx.driver

/-- `SeleniumBrowserContext.pages`: the single-element list holding
`self._current_page`. -/
def SeleniumBrowserContext.pages (ctx : SeleniumContextModel) :
    List SeleniumDriverState :=
  [ctx.driver]

/-- `SeleniumBrowserContext.get_state`.  The `if not self._current_page`
guard in the source is never taken (the page is constructed in `__init__`
and a page object is always truthy), so the body reads the driver directly:
`current_url` is read outside any `try` and its failure propagates; every
other field is individually wrapped and degrades to empty/`None`;
`accessibility_tree` is the constant `None`; the screenshot is captured
only when the `capture_screenshot` option (default true) is set. -/
def SeleniumBrowserContext.get_state (ctx : SeleniumContextModel)
    (capture_screenshot : Bool) : Except PyError SelStateSnapshot :=
  let d := ctx.driver
  match d.current_url with
  | .error e => .error e
  | .ok url =>
    let html_content := match d.page_source with
      | .ok s => s
      | .error _ => ""
    let accessibility_tree : Option String := none
    let focused_element_info := match d.active_element with
      | .ok (some raw) =>
          some { tag_name := raw.tag_name,
                 id := strOrNoneOfTruthy raw.idAttr,
                 name := strOrNoneOfTruthy raw.nameAttr }
      | .ok none => none
      | .error _ => none
    let window_size := match d.window_size with
      | .ok v => v
      | .error _ => { width := 0, height := 0 }
    let screenshot_base64 :=
      if capture_screenshot then
        match d.screenshot_b64 with
        | .ok s => some s
        | .error _ => none
      else none
    let title := match d.title with
      | .ok t => t
      | .error _ => ""
    .ok { url := url, html_content := html_content,
          accessibility_tree := accessibility_tree,
          focused_element_info := focused_element_info,
          viewport_size := window_size,
          screenshot_base64 := screenshot_base64,
          title := title }

/-! ## Selenium browser (src/src/browser/selenium_browser.py) -/

/-- A live WebDriver handle: the `session_id` attribute that
`is_connected` inspects, and the behaviour of `driver.quit()`. -/
structure SeleniumDriverHandle where
  session_id : Option String
  quit_result : Except PyError Unit
  deriving Repr, DecidableEq

/-- The keyword arguments `SeleniumBrowser.launch` reads. -/
structure SeleniumLaunchKwargs where
  headless : Bool
  browser_window_size : Option ViewportSize
  executable_path : Option String
  deriving Repr, DecidableEq

/-- The mutable fields of a `SeleniumBrowser`: `self.driver` and
`self.launch_options` (`none` models the initial empty dict). -/
structure SeleniumBrowserState where
  driver : Option SeleniumDriverHandle
  launch_options : Option SeleniumLaunchKwargs
  deriving Repr, DecidableEq

/-- `SeleniumBrowser.__init__`. -/
def SeleniumBrowser.mkInitial : SeleniumBrowserState :=
  { driver := none, launch_options := none }

/-- The behaviour of `webdriver.Chrome(...)` construction: with an explicit
`executable_path`, or with none (system PATH fallback). -/
structure SeleniumChromeBackend where
  chrome_with_path : String → Except PyError SeleniumDriverHandle
  chrome_default : Except PyError SeleniumDriverHandle

/-- `if chromedriver_exe_path: webdriver.Chrome(executable_path=..., ...)
else: webdriver.Chrome(options=options)` — the constructor selection at the
end of `SeleniumBrowser.launch`. -/
def chromeConstruct (be : SeleniumChromeBackend) :
    Option String → Except PyError SeleniumDriverHandle
  | some p => if p = "" then be.chrome_default else be.chrome_with_path p
  | none => be.chrome_default

/-- `SeleniumBrowser.launch`.  An existing driver short-circuits the whole
body (`if self.driver: return`) before `launch_options` is assigned.
Otherwise the options are recorded, the chromedriver path is resolved
(truthiness-checked `executable_path` kwarg, falling back to
`find_chromedriver_executable`), the appropriate constructor is invoked,
and on failure `self.driver` is reset to `None` and the exception re-raised.
The boolean in the result records whether a driver construction was
attempted (a new session creation). -/
def SeleniumBrowser.launch (be : SeleniumChromeBackend) (env : EnvState)
    (fs : FSState) (st : SeleniumBrowserState) (kw : SeleniumLaunchKwargs) :
    Except PyError Unit × SeleniumBrowserState × Bool :=
  match st.driver with
  | some _ => (.ok (), st, false)
  | none =>
    let st1 : SeleniumBrowserState := { st with launch_options := some kw }
    let pathOpt : Option String :=
      match kw.executable_path with
      | some s => if s = "" then find_chromedriver_executable env fs else some s
      | none => find_chromedriver_executable env fs
    match chromeConstruct be pathOpt with
    | .ok d => (.ok (), { st1 with driver := some d }, true)
    | .error e => (.error e, { st1 with driver := none }, true)

/-- `SeleniumBrowser.close`: `driver.quit()` runs inside
`try/except/finally` — a failing quit is only printed, and the `finally`
block always clears `self.driver`.  The third component is the printed
line, if any. -/
def SeleniumBrowser.close (st : SeleniumBrowserState) :
    Except PyError Unit × SeleniumBrowserState × Option String :=
  match st.driver with
  | none => (.ok (), st, none)
  | some d =>
    match d.quit_result with
    | .ok _ => (.ok (), { st with driver := none }, none)
    | .error e => (.ok (), { st with driver := none },
        some ("Error closing Selenium WebDriver: " ++ e.msg))

/-- `SeleniumBrowser.is_connected`: `self.driver is not None and
self.driver.session_id is not None` (short-circuiting). -/
def SeleniumBrowser.is_connected (st : SeleniumBrowserState) : Bool :=
  match st.driver with
  | some d => d.session_id.isSome
  | none => false

/-- `SeleniumBrowser.new_context`: raises `ConnectionError` when no driver
exists, otherwise wraps the live driver; the browser state is not
modified. -/
def SeleniumBrowser.new_context (st : SeleniumBrowserState)
    (pageDriver : SeleniumDriverState) : Except PyError SeleniumContextModel :=
  match st.driver with
  | none => .error (.connectionError "Browser is not launched or not connected.")
  | some _ => .ok { driver := pageDriver }

/-! ## Playwright page delegations (src/src/browser/custom_context.py,
PlaywrightPage) -/

/-- `PlaywrightPage.click`: a direct delegation to
`pw_page.click(selector, timeout=timeout)` — whatever the backend raises
(for Playwright, a TimeoutError when the selector never resolves)
propagates unchanged; nothing in the adapter converts it. -/
def PlaywrightPage.click (backend : Except PyError Unit) : Except PyError Unit :=
  backend

/-- `PlaywrightPage.type`: a direct delegation to
`pw_page.type(selector, text, timeout=timeout)`. -/
def PlaywrightPage.type (backend : Except PyError Unit) : Except PyError Unit :=
  backend

/-- `PlaywrightPage.wait_for_load_state`: a direct delegation to
`pw_page.wait_for_load_state(state, timeout=timeout)` — a backend timeout
error propagates to the caller. -/
def PlaywrightPage.wait_for_load_state (backend : Except PyError Unit) :
    Except PyError Unit :=
  backend

/-! ## Playwright context and snapshot assembler
(src/src/browser/custom_context.py, CustomBrowserContext) -/

/-- A Playwright page as the behaviour of the primitives
`CustomBrowserContext.get_state` invokes on it.  `url` and `viewport_size`
are synchronous attribute reads (they do not raise); the remaining fields
are calls that return or raise: `content()`, `accessibility.snapshot`
(a function of the `interesting_only` flag, possibly returning `None`),
the `document.activeElement` JS evaluation (the script itself yields the
id string or `null`), `screenshot()` composed with the base64 encoding
(the byte-level encoding is abstracted to its string result, which no
claim inspects), and `title()`. -/
structure PwPageModel where
  url : String
  viewport_size : Option ViewportSize
  content_result : Except PyError String
  accessibility_result : Bool → Except PyError (Option String)
  focused_eval_result : Except PyError (Option String)
  screenshot_b64_result : Except PyError String
  title_result : Except PyError String

/-- A Playwright browser context: its (synchronous) `pages` attribute and
its `viewport_size` attribute. -/
structure PwContextModel where
  pages : List PwPageModel
  viewport_size : Option ViewportSize

/-- The state-snapshot record returned by the Playwright adapter
(`focused_element_info` is the `{"id": ...}` dictionary, held as the id). -/
structure PwStateSnapshot where
  url : String
  html_content : String
  accessibility_tree : Option String
  focused_element_info : Option String
  viewport_size : ViewportSize
  screenshot_base64 : Option String
  title : String

/-- `CustomBrowserContext.get_current_page`: raises `RuntimeError` when the
context has no pages, otherwise wraps `pw_pages[-1]` (the last page). -/
def CustomBrowserContext.get_current_page (ctx : PwContextModel) :
    Except PyError PwPageModel :=
  match ctx.pages.getLast? with
  | none => .error (.runtimeError "No pages available in the browser context.")
  | some p => .ok p

/-- `CustomBrowserContext.get_state`.  Page resolution failure propagates
(the `if not current_page_wrapper` fallback branch is unreachable: a page
wrapper object is always truthy).  `content`, the accessibility snapshot,
the focused-element evaluation and the screenshot are individually wrapped
and degrade to empty/`None`; the focused id is truthiness-filtered both in
the JS expression and by `if focused_element_id:`.  The viewport prefers
the page attribute over the context attribute and falls back to `{0,0}`.
The final `await page.title()` in the returned dictionary literal is NOT
wrapped: its failure propagates out of `get_state`. -/
def CustomBrowserContext.get_state (ctx : PwContextModel)
    (capture_screenshot : Bool) (interesting_only : Bool) :
    Except PyError PwStateSnapshot :=
  match CustomBrowserContext.get_current_page ctx with
  | .error e => .error e
  | .ok page =>
    let url := page.url
    let html_content := match page.content_result with
      | .ok s => s
      | .error _ => ""
    let accessibility_tree := match page.accessibility_result interesting_only with
      | .ok a => a
      | .error _ => none
    let focused_element_info := match page.focused_eval_result with
      | .ok (some fid) => if fid = "" then none else some fid
      | .ok none => none
      | .error _ => none
    let viewport_size := match page.viewport_size with
      | some v => some v
      | none => ctx.viewport_size
    let screenshot_base64 :=
      if capture_screenshot then
        match page.screenshot_b64_result with
        | .ok s => some s
        | .error _ => none
      else none
    match page.title_result with
    | .error e => .error e
    | .ok title =>
      .ok { url := url, html_content := html_content,
            accessibility_tree := accessibility_tree,
            focused_element_info := focused_element_info,
            viewport_size := match viewport_size with
              | some v => v
              | none => { width := 0, height := 0 },
            screenshot_base64 := screenshot_base64,
            title := title }

/-! ## Playwright browser (src/src/browser/custom_browser.py) -/

/-- The Playwright driver object held in `self.playwright`, as the
behaviour of `playwright.stop()`. -/
structure PwHandle where
  stop_result : Except PyError Unit
  deriving Repr, DecidableEq

/-- The Playwright browser object held in `self.browser`: its live
`is_connected()` status and the behaviour of `browser.close()`. -/
structure PwBrowserHandle where
  connected : Bool
  close_result : Except PyError Unit
  deriving Repr, DecidableEq

/-- The mutable fields of a `CustomBrowser` (`launch_args` kept opaque). -/
structure CustomBrowserState where
  playwright : Option PwHandle
  browser : Option PwBrowserHandle
  launch_args : List (String × String)
  deriving Repr, DecidableEq

/-- `CustomBrowser.__init__`. -/
def CustomBrowser.mkInitial : CustomBrowserState :=
  { playwright := none, browser := none, launch_args := [] }

/-- The behaviour of `async_playwright().start()` and
`playwright.chromium.launch(**kwargs)`. -/
structure CustomLaunchBackend where
  start_result : Except PyError PwHandle
  launch_result : Except PyError PwBrowserHandle

/-- `CustomBrowser.launch`: start Playwright, then launch chromium, then
record the launch arguments; a failure at either step propagates, leaving
the fields assigned so far. -/
def CustomBrowser.launch (be : CustomLaunchBackend) (st : CustomBrowserState)
    (kw : List (String × String)) : Except PyError Unit × CustomBrowserState :=
  match be.start_result with
  | .error e => (.error e, st)
  | .ok pw =>
    let st1 : CustomBrowserState := { st with playwright := some pw }
    match be.launch_result with
    | .error e => (.error e, st1)
    | .ok b => (.ok (), { st1 with browser := some b, launch_args := kw })

/-- The second half of `CustomBrowser.close`: `if self.playwright: await
self.playwright.stop()` followed by clearing both fields.  A failing stop
propagates before the fields are cleared. -/
def customCloseRest (st : CustomBrowserState) :
    Except PyError Unit × CustomBrowserState :=
  match st.playwright with
  | some pw =>
    match pw.stop_result with
    | .error e => (.error e, st)
    | .ok _ => (.ok (), { st with browser := none, playwright := none })
  | none => (.ok (), { st with browser := none, playwright := none })

/-- `CustomBrowser.close`: `await self.browser.close()` is guarded by
`if self.browser and self.browser.is_connected():` but is NOT wrapped in
`try/except` — a failing backend close propagates and no field is cleared.
On a successful backend close the retained handle reports disconnected
(Playwright semantics) and the stop/clear half runs. -/
def CustomBrowser.close (st : CustomBrowserState) :
    Except PyError Unit × CustomBrowserState :=
  match st.browser with
  | some b =>
    if b.connected then
      match b.close_result with
      | .error e => (.error e, st)
      | .ok _ => customCloseRest { st with browser := some { b with connected := false } }
    else customCloseRest st
  | none => customCloseRest st

/-- `CustomBrowser.is_connected`: `self.browser is not None and
self.browser.is_connected()`. -/
def CustomBrowser.is_connected (st : CustomBrowserState) : Bool :=
  match st.browser with
  | some b => b.connected
  | none => false

/-! ## Helper lemmas -/

theorem findSome?_none_of_all_none {α β : Type} (f : α → Option β)
    (l : List α) (h : ∀ x ∈ l, f x = none) : l.findSome? f = none := by
  induction l with
  | nil => rfl
  | cons a t ih =>
    have ha : f a = none := h a (by simp)
    have ht : t.findSome? f = none := ih (fun x hx => h x (by simp [hx]))
    simp [List.findSome?_cons, ha, ht]

theorem firstPresent_none {E : Type} (probe : Nat → Option E) (d : Nat)
    (h : ∀ k, probe k = none) : firstPresent probe d = none := by
  unfold firstPresent
  exact findSome?_none_of_all_none _ _ (fun x _ => by simp [h x])

theorem firstCommonHit_none (fs : FSState) (l : List String)
    (h : ∀ q ∈ l, isExecFile fs (fs.abspath q) = false) :
    firstCommonHit fs l = none := by
  induction l with
  | nil => rfl
  | cons p rest ih =>
    have hp : isExecFile fs (fs.abspath p) = false := h p (by simp)
    have hr : firstCommonHit fs rest = none :=
      ih (fun q hq => h q (by simp [hq]))
    simp [firstCommonHit, hp, hr]

/-! ## Concrete fixtures used by witnesses and counterexamples -/

/-- An environment in which CHROMEDRIVER_PATH names `/opt/chromedriver`. -/
def envOverride : EnvState :=
  { chromedriver_path := some "/opt/chromedriver",
    nix_profiles := some "/nix/p1 /nix/p2",
    cwd := "/work", home := "/home/user",
    which_chromedriver := some "/usr/bin/chromedriver" }

/-- A filesystem on which exactly `/opt/chromedriver` and
`/usr/bin/chromedriver` are executable files. -/
def fsOverride : FSState :=
  { isfile := fun s => s == "/opt/chromedriver" || s == "/usr/bin/chromedriver",
    access_x := fun s => s == "/opt/chromedriver" || s == "/usr/bin/chromedriver",
    abspath := fun s => s }

/-- An environment with neither variable set and no PATH hit. -/
def envBare : EnvState :=
  { chromedriver_path := none, nix_profiles := none,
    cwd := "/work", home := "/home/user", which_chromedriver := none }

/-- A filesystem with no files at all. -/
def fsBare : FSState :=
  { isfile := fun _ => false, access_x := fun _ => false,
    abspath := fun s => s }

/-! ## Claims -/

/-- C3: `find_chromedriver_executable` returns the CHROMEDRIVER_PATH
override whenever that path names an existing executable file, regardless
of any other candidates present; and when no candidate in its ordered
search (override, PATH lookup, conventional locations) is an existing
executable file, it returns `none` rather than raising. -/
theorem c3_locator_override_priority_and_none
    (env1 : EnvState) (fs1 : FSState) (p : String)
    (h1 : env1.chromedriver_path = some p) (hp : p ≠ "")
    (hf : fs1.isfile p = true) (hx : fs1.access_x p = true)
    (env2 : EnvState) (fs2 : FSState)
    (h2e : checkOpt fs2 env2.chromedriver_path = none)
    (h2w : checkOpt fs2 env2.which_chromedriver = none)
    (h2c : ∀ q ∈ commonPaths env2, isExecFile fs2 (fs2.abspath q) = false) :
    find_chromedriver_executable env1 fs1 = some p ∧
    find_chromedriver_executable env2 fs2 = none := by
  constructor
  · unfold find_chromedriver_executable
    rw [h1]
    simp [checkOpt, hp, isExecFile, hf, hx]
  · unfold find_chromedriver_executable
    rw [h2e, h2w]
    exact firstCommonHit_none fs2 _ h2c

theorem c3_witness :
    find_chromedriver_executable envOverride fsOverride = some "/opt/chromedriver" ∧
    find_chromedriver_executable envBare fsBare = none :=
  c3_locator_override_priority_and_none envOverride fsOverride "/opt/chromedriver"
    rfl (by decide) rfl rfl envBare fsBare rfl rfl (fun q hq => rfl)

/-- A probe on which no CSS match is ever present. -/
def noMatchProbe : Nat → Option SeleniumElement := fun _ => none

/-- C4: `SeleniumPage.query_selector` with a timeout performs a bounded
polling wait and, when nothing ever matches, returns `none` only once the
full timeout has elapsed; without a timeout it performs a single immediate
lookup and returns `none` at elapsed time zero. -/
theorem c4_query_selector_timeout_asymmetry {E : Type}
    (probe : Nat → Option E) (t : Nat) (hnone : ∀ k, probe k = none) :
    SeleniumPage.query_selector probe (some t) = (none, t) ∧
    SeleniumPage.query_selector probe none = (none, 0) := by
  constructor
  · unfold SeleniumPage.query_selector
    rcases Nat.eq_zero_or_pos t with ht | ht
    · subst ht
      simp [pyTruthyNat, hnone 0]
    · have hne : t ≠ 0 := Nat.pos_iff_ne_zero.mp ht
      simp [pyTruthyNat, hne, webDriverWaitPresence,
            firstPresent_none probe t hnone]
  · simp [SeleniumPage.query_selector, pyTruthyNat, hnone 0]

theorem c4_witness :
    SeleniumPage.query_selector noMatchProbe (some 400) = (none, 400) ∧
    SeleniumPage.query_selector noMatchProbe none = (none, 0) :=
  c4_query_selector_timeout_asymmetry noMatchProbe 400 (fun _ => rfl)

/-- A live driver handle whose `quit` succeeds. -/
def liveDriverHandle : SeleniumDriverHandle :=
  { session_id := some "sess-1", quit_result := .ok () }

/-- A chrome constructor that always yields `liveDriverHandle`. -/
def chromeOkBackend : SeleniumChromeBackend :=
  { chrome_with_path := fun _ => .ok liveDriverHandle,
    chrome_default := .ok liveDriverHandle }

/-- A browser state in which a driver session already exists. -/
def launchedSeleniumState : SeleniumBrowserState :=
  { driver := some liveDriverHandle, launch_options := none }

/-- Sample keyword arguments for a second `launch` call. -/
def sampleKwargs : SeleniumLaunchKwargs :=
  { headless := true, browser_window_size := some { width := 800, height := 600 },
    executable_path := some "/tmp/other-driver" }

/-- C9: when a driver session already exists, `SeleniumBrowser.launch`
returns immediately: no constructor is invoked (no new session), and
neither the stored driver handle nor the previously recorded launch
options change, whatever keyword arguments the call carries. -/
theorem c9_launch_no_op_when_driver_exists
    (be : SeleniumChromeBackend) (env : EnvState) (fs : FSState)
    (st : SeleniumBrowserState) (kw : SeleniumLaunchKwargs)
    (d : SeleniumDriverHandle) (h : st.driver = some d) :
    SeleniumBrowser.launch be env fs st kw = (.ok (), st, false) := by
  unfold SeleniumBrowser.launch
  rw [h]

theorem c9_witness :
    SeleniumBrowser.launch chromeOkBackend envBare fsBare
      launchedSeleniumState sampleKwargs = (.ok (), launchedSeleniumState, false) :=
  c9_launch_no_op_when_driver_exists chromeOkBackend envBare fsBare
    launchedSeleniumState sampleKwargs liveDriverHandle rfl

/-- C10: `SeleniumPage.type_active` never raises — any failure of the
active-element lookup or of the key dispatch is caught and only logged —
and its `timeout` parameter has no effect on the outcome. -/
theorem c10_type_active_never_raises
    (send : Except PyError Unit) (text : String) (t1 t2 : Option Nat) :
    (SeleniumPage.type_active send text t1).1 = .ok () ∧
    SeleniumPage.type_active send text t1 = SeleniumPage.type_active send text t2 := by
  cases send <;> exact ⟨rfl, rfl⟩

/-- A Playwright driver whose `stop` succeeds. -/
def pwOkHandle : PwHandle := { stop_result := .ok () }

/-- A connected Playwright browser whose `close` succeeds. -/
def pwOkBrowser : PwBrowserHandle := { connected := true, close_result := .ok () }

/-- A Playwright backend whose start and launch both succeed. -/
def customOkBackend : CustomLaunchBackend :=
  { start_result := .ok pwOkHandle, launch_result := .ok pwOkBrowser }

/-- C7: for both adapters, `is_connected` is false in the freshly
constructed browser, true after a successful `launch` (a launch that yields
a live session handle), and false again after the subsequent `close`
completes. -/
theorem c7_is_connected_lifecycle
    (be : SeleniumChromeBackend) (env : EnvState) (fs : FSState)
    (kw : SeleniumLaunchKwargs) (d : SeleniumDriverHandle) (sid : String)
    (hcw : ∀ q, be.chrome_with_path q = .ok d) (hcd : be.chrome_default = .ok d)
    (hsid : d.session_id = some sid)
    (cbe : CustomLaunchBackend) (pw : PwHandle) (b : PwBrowserHandle)
    (ckw : List (String × String))
    (hstart : cbe.start_result = .ok pw) (hbl : cbe.launch_result = .ok b)
    (hconn : b.connected = true) (hbc : b.close_result = .ok ())
    (hps : pw.stop_result = .ok ()) :
    SeleniumBrowser.is_connected SeleniumBrowser.mkInitial = false ∧
    SeleniumBrowser.is_connected
      (SeleniumBrowser.launch be env fs SeleniumBrowser.mkInitial kw).2.1 = true ∧
    SeleniumBrowser.is_connected
      (SeleniumBrowser.close
        (SeleniumBrowser.launch be env fs SeleniumBrowser.mkInitial kw).2.1).2.1 = false ∧
    CustomBrowser.is_connected CustomBrowser.mkInitial = false ∧
    CustomBrowser.is_connected
      (CustomBrowser.launch cbe CustomBrowser.mkInitial ckw).2 = true ∧
    CustomBrowser.is_connected
      (CustomBrowser.close (CustomBrowser.launch cbe CustomBrowser.mkInitial ckw).2).2 = false := by
  have hcc : ∀ po, chromeConstruct be po = .ok d := by
    intro po
    cases po with
    | none => exact hcd
    | some p =>
      by_cases hp : p = "" <;> simp [chromeConstruct, hp, hcd, hcw p]
  have hsl : SeleniumBrowser.launch be env fs SeleniumBrowser.mkInitial kw =
      (.ok (), { driver := some d, launch_options := some kw }, true) := by
    simp [SeleniumBrowser.launch, SeleniumBrowser.mkInitial, hcc]
  have hcl : CustomBrowser.launch cbe CustomBrowser.mkInitial ckw =
      (.ok (), { playwright := some pw, browser := some b, launch_args := ckw }) := by
    simp [CustomBrowser.launch, CustomBrowser.mkInitial, hstart, hbl]
  refine ⟨rfl, ?_, ?_, rfl, ?_, ?_⟩
  · rw [hsl]
    simp [SeleniumBrowser.is_connected, hsid]
  · rw [hsl]
    cases hq : d.quit_result <;>
      simp [SeleniumBrowser.close, hq, SeleniumBrowser.is_connected]
  · rw [hcl]
    simp [CustomBrowser.is_connected, hconn]
  · rw [hcl]
    simp [CustomBrowser.close, hconn, hbc, customCloseRest, hps,
          CustomBrowser.is_connected]

theorem c7_witness :
    SeleniumBrowser.is_connected SeleniumBrowser.mkInitial = false ∧
    SeleniumBrowser.is_connected
      (SeleniumBrowser.launch chromeOkBackend envBare fsBare
        SeleniumBrowser.mkInitial sampleKwargs).2.1 = true ∧
    SeleniumBrowser.is_connected
      (SeleniumBrowser.close
        (SeleniumBrowser.launch chromeOkBackend envBare fsBare
          SeleniumBrowser.mkInitial sampleKwargs).2.1).2.1 = false ∧
    CustomBrowser.is_connected CustomBrowser.mkInitial = false ∧
    CustomBrowser.is_connected
      (CustomBrowser.launch customOkBackend CustomBrowser.mkInitial []).2 = true ∧
    CustomBrowser.is_connected
      (CustomBrowser.close
        (CustomBrowser.launch customOkBackend CustomBrowser.mkInitial []).2).2 = false :=
  c7_is_connected_lifecycle chromeOkBackend envBare fsBare sampleKwargs
    liveDriverHandle "sess-1" (fun _ => rfl) rfl rfl
    customOkBackend pwOkHandle pwOkBrowser [] rfl rfl rfl rfl rfl

/-- The url field of a Selenium snapshot call, when the call succeeded. -/
def selSnapshotUrl : Except PyError SelStateSnapshot → Option String
  | .ok s => some s.url
  | .error _ => none

/-- The url field of a Playwright snapshot call, when the call succeeded. -/
def pwSnapshotUrl : Except PyError PwStateSnapshot → Option String
  | .ok s => some s.url
  | .error _ => none

/-- The title field of a Playwright snapshot call, when the call
succeeded. -/
def pwSnapshotTitle : Except PyError PwStateSnapshot → Option String
  | .ok s => some s.title
  | .error _ => none

/-- A healthy Playwright page on which only the `title()` call fails. -/
def titleFailPage : PwPageModel :=
  { url := "https://example.com/",
    viewport_size := some { width := 1280, height := 720 },
    content_result := .ok "<html><body></body></html>",
    accessibility_result := fun _ => .ok none,
    focused_eval_result := .ok none,
    screenshot_b64_result := .ok "QUJD",
    title_result := .error (.exception "Page crashed") }

/-- A Playwright context holding exactly `titleFailPage`. -/
def titleFailCtx : PwContextModel :=
  { pages := [titleFailPage], viewport_size := none }

/-- C1 counterexample: on the Playwright adapter, a failure of the single
enrichment source `title()` does NOT degrade to a default — the exception
propagates out of `get_state`, so the call raises instead of returning a
record. -/
theorem c1_counterexample_title_failure_raises :
    CustomBrowserContext.get_state titleFailCtx true false =
      .error (.exception "Page crashed") := rfl

/-- A Selenium driver on which every enrichment source fails but the URL
read succeeds. -/
def failingSeleniumDriver : SeleniumDriverState :=
  { current_url := .ok "https://example.com/",
    page_source := .error (.exception "boom-content"),
    active_element := .error (.exception "boom-focused"),
    window_size := .error (.exception "boom-viewport"),
    screenshot_b64 := .error (.exception "boom-shot"),
    title := .error (.exception "boom-title") }

/-- A Selenium context over `failingSeleniumDriver`. -/
def failingSeleniumCtx : SeleniumContextModel :=
  { driver := failingSeleniumDriver }

/-- A Playwright page on which every enrichment source except `title()`
fails. -/
def enrichFailPage : PwPageModel :=
  { url := "https://example.com/",
    viewport_size := none,
    content_result := .error (.exception "boom-content"),
    accessibility_result := fun _ => .error (.exception "boom-acc"),
    focused_eval_result := .error (.exception "boom-focused"),
    screenshot_b64_result := .error (.exception "boom-shot"),
    title_result := .ok "Example Domain" }

/-- A Playwright context holding exactly `enrichFailPage`. -/
def enrichFailCtx : PwContextModel :=
  { pages := [enrichFailPage], viewport_size := none }

/-- C1 (amended): on the Selenium adapter, `get_state` never raises under
any combination of enrichment-source failures (content, focused element,
viewport, screenshot, title all degrade) and the returned record carries
the real URL; on the Playwright adapter the same holds for the sources it
wraps (content, accessibility, focused element, screenshot) provided the
unwrapped `title()` call succeeds, and the record carries the real URL and
title.  A `title()` failure on the Playwright adapter propagates (see the
counterexample). -/
theorem c1_amended_get_state_best_effort
    (ctx : SeleniumContextModel) (cs : Bool) (u : String)
    (hu : ctx.driver.current_url = .ok u)
    (pctx : PwContextModel) (pg : PwPageModel) (cs2 io : Bool) (ttl : String)
    (hpg : pctx.pages.getLast? = some pg) (ht : pg.title_result = .ok ttl) :
    exceptIsOk (SeleniumBrowserContext.get_state ctx cs) = true ∧
    selSnapshotUrl (SeleniumBrowserContext.get_state ctx cs) = some u ∧
    exceptIsOk (CustomBrowserContext.get_state pctx cs2 io) = true ∧
    pwSnapshotUrl (CustomBrowserContext.get_state pctx cs2 io) = some pg.url ∧
    pwSnapshotTitle (CustomBrowserContext.get_state pctx cs2 io) = some ttl := by
  have hsel : SeleniumBrowserContext.get_state ctx cs =
      .ok { url := u,
            html_content := match ctx.driver.page_source with
              | .ok s => s
              | .error _ => "",
            accessibility_tree := none,
            focused_element_info := match ctx.driver.active_element with
              | .ok (some raw) =>
                  some { tag_name := raw.tag_name,
                         id := strOrNoneOfTruthy raw.idAttr,
                         name := strOrNoneOfTruthy raw.nameAttr }
              | .ok none => none
              | .error _ => none,
            viewport_size := match ctx.driver.window_size with
              | .ok v => v
              | .error _ => { width := 0, height := 0 },
            screenshot_base64 :=
              if cs then
                match ctx.driver.screenshot_b64 with
                | .ok s => some s
                | .error _ => none
              else none,
            title := match ctx.driver.title with
              | .ok t => t
              | .error _ => "" } := by
    simp only [SeleniumBrowserContext.get_state, hu]
  have hpw : CustomBrowserContext.get_current_page pctx = .ok pg := by
    unfold CustomBrowserContext.get_current_page
    rw [hpg]
  have hcus : CustomBrowserContext.get_state pctx cs2 io =
      .ok { url := pg.url,
            html_content := match pg.content_result with
              | .ok s => s
              | .error _ => "",
            accessibility_tree := match pg.accessibility_result io with
              | .ok a => a
              | .error _ => none,
            focused_element_info := match pg.focused_eval_result with
              | .ok (some fid) => if fid = "" then none else some fid
              | .ok none => none
              | .error _ => none,
            viewport_size :=
              match (match pg.viewport_size with
                     | some v => some v
                     | none => pctx.viewport_size) with
              | some v => v
              | none => { width := 0, height := 0 },
            screenshot_base64 :=
              if cs2 then
                match pg.screenshot_b64_result with
                | .ok s => some s
                | .error _ => none
              else none,
            title := ttl } := by
    simp only [CustomBrowserContext.get_state, hpw, ht]
  rw [hsel, hcus]
  exact ⟨rfl, rfl, rfl, rfl, rfl⟩

theorem c1_amended_witness :
    exceptIsOk (SeleniumBrowserContext.get_state failingSeleniumCtx true) = true ∧
    selSnapshotUrl (SeleniumBrowserContext.get_state failingSeleniumCtx true) =
      some "https://example.com/" ∧
    exceptIsOk (CustomBrowserContext.get_state enrichFailCtx true false) = true ∧
    pwSnapshotUrl (CustomBrowserContext.get_state enrichFailCtx true false) =
      some "https://example.com/" ∧
    pwSnapshotTitle (CustomBrowserContext.get_state enrichFailCtx true false) =
      some "Example Domain" :=
  c1_amended_get_state_best_effort failingSeleniumCtx true "https://example.com/" rfl
    enrichFailCtx enrichFailPage true false "Example Domain" rfl rfl

theorem query_selector_none_of_no_match {E : Type} (probe : Nat → Option E)
    (t : Option Nat) (hnone : ∀ k, probe k = none) :
    (SeleniumPage.query_selector probe t).1 = none := by
  cases t with
  | none => simp [SeleniumPage.query_selector, pyTruthyNat, hnone 0]
  | some n =>
    by_cases hn : n = 0
    · subst hn
      simp [SeleniumPage.query_selector, pyTruthyNat, hnone 0]
    · simp [SeleniumPage.query_selector, pyTruthyNat, hn, webDriverWaitPresence,
            firstPresent_none probe n hnone]

/-- C2 counterexample: `SeleniumPage.click` on a selector that never
resolves raises a plain generic `Exception` (carrying a message naming the
selector), not an error of the distinct ElementNotFound kind — no
ElementNotFound class exists anywhere in the repository. -/
theorem c2_counterexample_generic_exception_kind :
    SeleniumPage.click noMatchProbe "#missing" (some 100) =
      .error (.exception ("Element with selector " ++ quoteChar ++ "#missing" ++
        quoteChar ++ " not found for click.")) ∧
    raisedElementNotFound (SeleniumPage.click noMatchProbe "#missing" (some 100)) =
      false :=
  ⟨rfl, rfl⟩

/-- C2 (amended): on the WebDriver adapter, `click` and `type` never
complete silently when the selector resolves to nothing after the timeout:
each raises an exception whose message names the selector — but the raised
error is a plain generic `Exception`, not a distinct ElementNotFound kind.
The Playwright adapter's `click`/`type` delegate entirely to the backend
call, propagating whatever it raises (for Playwright, a timeout error)
unchanged. -/
theorem c2_amended_click_type_raise_generic
    (probe : Nat → Option SeleniumElement) (sel txt : String) (t : Option Nat)
    (hnone : ∀ k, probe k = none) (b1 b2 : Except PyError Unit) :
    SeleniumPage.click probe sel t =
      .error (.exception ("Element with selector " ++ quoteChar ++ sel ++
        quoteChar ++ " not found for click.")) ∧
    SeleniumPage.type probe sel txt t =
      .error (.exception ("Element with selector " ++ quoteChar ++ sel ++
        quoteChar ++ " not found for type.")) ∧
    PlaywrightPage.click b1 = b1 ∧
    PlaywrightPage.type b2 = b2 := by
  have hq := query_selector_none_of_no_match probe t hnone
  refine ⟨?_, ?_, rfl, rfl⟩
  · unfold SeleniumPage.click
    rw [hq]
  · unfold SeleniumPage.type
    rw [hq]

theorem c2_amended_witness :
    SeleniumPage.click noMatchProbe "#absent" (some 250) =
      .error (.exception ("Element with selector " ++ quoteChar ++ "#absent" ++
        quoteChar ++ " not found for click.")) ∧
    SeleniumPage.type noMatchProbe "#absent" "hello" (some 250) =
      .error (.exception ("Element with selector " ++ quoteChar ++ "#absent" ++
        quoteChar ++ " not found for type.")) ∧
    PlaywrightPage.click (.error (.timeoutError "Timeout 250ms exceeded.")) =
      .error (.timeoutError "Timeout 250ms exceeded.") ∧
    PlaywrightPage.type (.error (.timeoutError "Timeout 250ms exceeded.")) =
      .error (.timeoutError "Timeout 250ms exceeded.") :=
  c2_amended_click_type_raise_generic noMatchProbe "#absent" "hello" (some 250)
    (fun _ => rfl) (.error (.timeoutError "Timeout 250ms exceeded."))
    (.error (.timeoutError "Timeout 250ms exceeded."))

/-- A readyState script on a document that never finishes loading. -/
def loadingProbe : Nat → Except PyError String := fun _ => .ok "loading"

/-- C5 counterexample: on the WebDriver adapter, `wait_for_load_state`
with a caller-supplied timeout whose wait expires (the document never
reaches readyState "complete" within the 50ms timeout) returns
successfully — the timeout expiry is silently swallowed by the bare
`except: pass`, not reported as an error of any kind. -/
theorem c5_counterexample_timeout_swallowed :
    SeleniumPage.wait_for_load_state loadingProbe none (some 50) = .ok () ∧
    exceptIsOk (SeleniumPage.wait_for_load_state loadingProbe none (some 50)) =
      true :=
  ⟨rfl, rfl⟩

/-- C5 (amended): the WebDriver adapter's `wait_for_load_state` absorbs
every outcome — in particular expiry of the caller-supplied timeout — and
always returns success, so it belongs with the snapshot fields and
`query_selector` among the operations that swallow timeouts.  Only the
Playwright adapter's `wait_for_load_state` propagates the backend's
timeout error, as it is a pure delegation. -/
theorem c5_amended_wait_for_load_state_absorbs
    (probe : Nat → Except PyError String) (state : Option String)
    (t : Option Nat) (backend : Except PyError Unit) :
    SeleniumPage.wait_for_load_state probe state t = .ok () ∧
    PlaywrightPage.wait_for_load_state backend = backend := by
  constructor
  · unfold SeleniumPage.wait_for_load_state
    split
    · split <;> rfl
    · rfl
  · rfl

/-- A connected Playwright browser whose backend `close()` call raises. -/
def pwFailingBrowser : PwBrowserHandle :=
  { connected := true,
    close_result := .error (.exception "Browser.close: Connection closed") }

/-- A launched CustomBrowser holding `pwFailingBrowser`. -/
def customStateFailingClose : CustomBrowserState :=
  { playwright := some pwOkHandle, browser := some pwFailingBrowser,
    launch_args := [] }

/-- C6 counterexample: `CustomBrowser.close` is not wrapped in try/except
around the backend `browser.close()` call, so in the browser state where
that call raises, the first of the two `close()` calls raises instead of
completing — the claim's "never raises, for every adapter and browser
state" fails on the Playwright adapter. -/
theorem c6_counterexample_custom_close_raises :
    (CustomBrowser.close customStateFailingClose).1 =
      .error (.exception "Browser.close: Connection closed") := rfl

theorem seleniumClose_none (s : SeleniumBrowserState) (h : s.driver = none) :
    SeleniumBrowser.close s = (.ok (), s, none) := by
  unfold SeleniumBrowser.close
  rw [h]

theorem customCloseRest_ok (st : CustomBrowserState)
    (hp : ∀ pw, st.playwright = some pw → pw.stop_result = .ok ()) :
    customCloseRest st =
      (.ok (), { st with browser := none, playwright := none }) := by
  cases hpw : st.playwright with
  | none => simp [customCloseRest, hpw]
  | some pw => simp [customCloseRest, hpw, hp pw hpw]

theorem customClose_eq (cst : CustomBrowserState)
    (hb : ∀ b, cst.browser = some b → b.close_result = .ok ())
    (hp : ∀ pw, cst.playwright = some pw → pw.stop_result = .ok ()) :
    CustomBrowser.close cst =
      (.ok (), { cst with browser := none, playwright := none }) := by
  unfold CustomBrowser.close
  cases hbr : cst.browser with
  | none => exact customCloseRest_ok cst hp
  | some b =>
    cases hc : b.connected with
    | false =>
      simp only [hc, Bool.false_eq_true, if_false]
      exact customCloseRest_ok cst hp
    | true =>
      simp only [hc, if_true, hb b hbr]
      exact customCloseRest_ok _ (fun pw hpw => hp pw hpw)

/-- C6 (amended): the WebDriver adapter's `close()` never raises in any
browser state — even a failing `driver.quit()` is caught — and twice in
succession leaves `is_connected` false after each call; the Playwright
adapter's double close has the same property whenever the underlying
backend `close`/`stop` calls succeed, but a failing backend close
propagates out of the call (see the counterexample). -/
theorem c6_amended_close_idempotent_disconnects
    (st : SeleniumBrowserState) (cst : CustomBrowserState)
    (hb : ∀ b, cst.browser = some b → b.close_result = .ok ())
    (hp : ∀ pw, cst.playwright = some pw → pw.stop_result = .ok ()) :
    (SeleniumBrowser.close st).1 = .ok () ∧
    SeleniumBrowser.is_connected (SeleniumBrowser.close st).2.1 = false ∧
    (SeleniumBrowser.close (SeleniumBrowser.close st).2.1).1 = .ok () ∧
    SeleniumBrowser.is_connected
      (SeleniumBrowser.close (SeleniumBrowser.close st).2.1).2.1 = false ∧
    (CustomBrowser.close cst).1 = .ok () ∧
    CustomBrowser.is_connected (CustomBrowser.close cst).2 = false ∧
    (CustomBrowser.close (CustomBrowser.close cst).2).1 = .ok () ∧
    CustomBrowser.is_connected
      (CustomBrowser.close (CustomBrowser.close cst).2).2 = false := by
  have hsel1 : (SeleniumBrowser.close st).1 = .ok () ∧
      (SeleniumBrowser.close st).2.1.driver = none := by
    cases hd : st.driver with
    | none => simp [SeleniumBrowser.close, hd]
    | some d => cases hq : d.quit_result <;> simp [SeleniumBrowser.close, hd, hq]
  have hic1 : SeleniumBrowser.is_connected (SeleniumBrowser.close st).2.1 = false := by
    simp [SeleniumBrowser.is_connected, hsel1.2]
  have h2 := seleniumClose_none _ hsel1.2
  have hc1 := customClose_eq cst hb hp
  have hc2 : CustomBrowser.close { cst with browser := none, playwright := none } =
      (.ok (), { cst with browser := none, playwright := none }) :=
    customClose_eq _ (fun b h => by simp at h) (fun pw h => by simp at h)
  refine ⟨hsel1.1, hic1, ?_, ?_, ?_, ?_, ?_, ?_⟩
  · rw [h2]
  · rw [h2]
    exact hic1
  · rw [hc1]
  · rw [hc1]
    rfl
  · rw [hc1]
    show (CustomBrowser.close { cst with browser := none, playwright := none }).1 = .ok ()
    rw [hc2]
  · rw [hc1]
    show CustomBrowser.is_connected
      (CustomBrowser.close { cst with browser := none, playwright := none }).2 = false
    rw [hc2]
    rfl

/-- A launched CustomBrowser whose backend close and stop succeed. -/
def customLaunchedOk : CustomBrowserState :=
  { playwright := some pwOkHandle, browser := some pwOkBrowser,
    launch_args := [] }

/-- A Selenium browser state whose driver's `quit()` raises. -/
def quitFailState : SeleniumBrowserState :=
  { driver := some { session_id := some "sess-2",
                     quit_result := .error (.exception "quit failed") },
    launch_options := none }

theorem c6_amended_witness :
    (SeleniumBrowser.close quitFailState).1 = .ok () ∧
    SeleniumBrowser.is_connected (SeleniumBrowser.close quitFailState).2.1 = false ∧
    (SeleniumBrowser.close (SeleniumBrowser.close quitFailState).2.1).1 = .ok () ∧
    SeleniumBrowser.is_connected
      (SeleniumBrowser.close (SeleniumBrowser.close quitFailState).2.1).2.1 = false ∧
    (CustomBrowser.close customLaunchedOk).1 = .ok () ∧
    CustomBrowser.is_connected (CustomBrowser.close customLaunchedOk).2 = false ∧
    (CustomBrowser.close (CustomBrowser.close customLaunchedOk).2).1 = .ok () ∧
    CustomBrowser.is_connected
      (CustomBrowser.close (CustomBrowser.close customLaunchedOk).2).2 = false :=
  c6_amended_close_idempotent_disconnects quitFailState customLaunchedOk
    (fun b h => by injection h with h2; rw [← h2]; rfl)
    (fun pw h => by injection h with h2; rw [← h2]; rfl)

/-- A Playwright context with no pages. -/
def emptyPwContext : PwContextModel := { pages := [], viewport_size := none }

/-- C8 counterexample: `CustomBrowserContext.get_current_page` on a
context with no pages raises `RuntimeError`, a distinct Python class but
not one named NotFoundError — no NotFoundError class exists anywhere in
the repository. -/
theorem c8_counterexample_runtime_error_kind :
    CustomBrowserContext.get_current_page emptyPwContext =
      .error (.runtimeError "No pages available in the browser context.") ∧
    raisedNotFoundError (CustomBrowserContext.get_current_page emptyPwContext) =
      false :=
  ⟨rfl, rfl⟩

/-- C8 (amended): `CustomBrowserContext.get_current_page` returns the last
page when at least one page exists and raises (a `RuntimeError`, not a
class named NotFoundError) when none exists — it never returns a null or
defaulted value in that case; the Selenium adapter's context constructs
its single page in `__init__` and `get_current_page` therefore always
returns it, so the no-page case cannot arise there. -/
theorem c8_amended_get_current_page
    (ctx : PwContextModel) (pg : PwPageModel)
    (hpg : ctx.pages.getLast? = some pg)
    (ectx : PwContextModel) (hempty : ectx.pages = [])
    (sctx : SeleniumContextModel) :
    CustomBrowserContext.get_current_page ctx = .ok pg ∧
    CustomBrowserContext.get_current_page ectx =
      .error (.runtimeError "No pages available in the browser context.") ∧
    SeleniumBrowserContext.get_current_page sctx = .ok sctx.driver := by
  refine ⟨?_, ?_, rfl⟩
  · unfold CustomBrowserContext.get_current_page
    rw [hpg]
  · unfold CustomBrowserContext.get_current_page
    rw [hempty]
    rfl

/-- A healthy Playwright page used as the single page of a context. -/
def samplePwPage : PwPageModel :=
  { url := "https://example.org/",
    viewport_size := none,
    content_result := .ok "<html><body>ok</body></html>",
    accessibility_result := fun _ => .ok none,
    focused_eval_result := .ok (some "main-input"),
    screenshot_b64_result := .ok "SU1H",
    title_result := .ok "Example" }

/-- A Playwright context holding exactly `samplePwPage`. -/
def samplePwContext : PwContextModel :=
  { pages := [samplePwPage], viewport_size := some { width := 1024, height := 768 } }

/-- A healthy Selenium driver behaviour. -/
def sampleSeleniumDriver : SeleniumDriverState :=
  { current_url := .ok "https://example.org/",
    page_source := .ok "<html><body>ok</body></html>",
    active_element := .ok none,
    window_size := .ok { width := 1024, height := 768 },
    screenshot_b64 := .ok "SU1H",
    title := .ok "Example" }

/-- A Selenium context over `sampleSeleniumDriver`. -/
def sampleSeleniumCtx : SeleniumContextModel := { driver := sampleSeleniumDriver }

theorem c8_amended_witness :
    CustomBrowserContext.get_current_page samplePwContext = .ok samplePwPage ∧
    CustomBrowserContext.get_current_page emptyPwContext =
      .error (.runtimeError "No pages available in the browser context.") ∧
    SeleniumBrowserContext.get_current_page sampleSeleniumCtx =
      .ok sampleSeleniumCtx.driver :=
  c8_amended_get_current_page samplePwContext samplePwPage rfl
    emptyPwContext rfl sampleSeleniumCtx
